import Mathlib

/-!
Shallow embedding of the Matterbridge orchestration core (matterbridge.ts):
the persisted storage contexts, the plugin registry and lifecycle operations,
the device registry with the bridge/childbridge topology protocol, the startup
supervisor polls, and the shutdown coordinator.  Asynchronous hook invocations
are modelled by passing their outcome as an explicit parameter; external
collaborators (the matter.js protocol engine, the file system, loggers) are
modelled only through the state they contribute to the orchestration core.
-/

namespace Matterbridge

/-- A value held by a matter.js storage context.  The source stores strings and
numbers; `nan` models a JS NaN produced by parseInt, `undef` models storing an
undefined attribute value. -/
inductive StoreVal where
  | s (v : String)
  | n (v : Nat)
  | nan
  | undef
deriving DecidableEq, Repr

/-- A storage context is a persisted key-value record. -/
abbrev Store := List (String × StoreVal)

/-- Reads a key from a storage context. -/
def storeGet : Store → String → Option StoreVal
  | [], _ => none
  | (k₀, v) :: rest, k => if k₀ = k then some v else storeGet rest k

/-- Models context.get(key, defaultValue): the stored value when present,
otherwise the supplied default (matter.js does not persist the default). -/
def ctxGetD (st : Store) (k : String) (d : StoreVal) : StoreVal :=
  (storeGet st k).getD d

/-- Models context.set(key, value): overwrite or append. -/
def ctxSet : Store → String → StoreVal → Store
  | [], k, v => [(k, v)]
  | (k₀, v₀) :: rest, k, v =>
    if k₀ = k then (k, v) :: rest else (k₀, v₀) :: ctxSet rest k v

/-- Models JS parseInt(s, 10) on the nonnegative version strings the source
feeds it: the leading decimal digits, or NaN when there are none. -/
def jsParseInt (str : String) : StoreVal :=
  match (str.takeWhile Char.isDigit).toNat? with
  | some k => StoreVal.n k
  | none => StoreVal.nan

/-- The softwareVersion value written by createCommissioningServerContext:
matterbridgeVersion && matterbridgeVersion.includes('.')
  ? parseInt(matterbridgeVersion.split('.')[0], 10) : 1.
The field is a non-nullable string, so the falsy case is the empty string. -/
def versionNumberValue (version : String) : StoreVal :=
  if version ≠ "" ∧ version.contains '.' = true then
    jsParseInt ((version.splitOn ".").headD "")
  else StoreVal.n 1

/-- Embedding of Matterbridge.createCommissioningServerContext.  The storage
manager hands back the persisted context for the plugin (`storageCtx`);
`randomHex` is the fresh random data used for the fallback default.  The
`?? '1.0.0'` fallbacks of the source cannot fire because both version fields
are non-nullable strings on the instance. -/
def createCommissioningServerContext (storageCtx : Store) (randomHex : String)
    (deviceName : String) (deviceType : Nat) (vendorId : Nat) (vendorName : String)
    (productId : Nat) (productName : String)
    (matterbridgeVersion : String) (osRelease : String) : Store :=
  let random := "CS" ++ randomHex
  let st := ctxSet storageCtx "deviceName" (StoreVal.s deviceName)
  let st := ctxSet st "deviceType" (StoreVal.n deviceType)
  let st := ctxSet st "vendorId" (StoreVal.n vendorId)
  let st := ctxSet st "vendorName" (StoreVal.s (vendorName.take 32))
  let st := ctxSet st "productId" (StoreVal.n productId)
  let st := ctxSet st "productName" (StoreVal.s (productName.take 32))
  let st := ctxSet st "nodeLabel" (StoreVal.s (productName.take 32))
  let st := ctxSet st "productLabel" (StoreVal.s (productName.take 32))
  let st := ctxSet st "serialNumber" (ctxGetD st "serialNumber" (StoreVal.s random))
  let st := ctxSet st "uniqueId" (ctxGetD st "uniqueId" (StoreVal.s random))
  let st := ctxSet st "softwareVersion" (versionNumberValue matterbridgeVersion)
  let st := ctxSet st "softwareVersionString" (StoreVal.s matterbridgeVersion)
  let st := ctxSet st "hardwareVersion" (versionNumberValue osRelease)
  let st := ctxSet st "hardwareVersionString" (StoreVal.s osRelease)
  st

/-- Embedding of the storage writes of Matterbridge.createMatterAggregator:
the aggregator serial number and unique id use the same read-with-fallback
pattern as the commissioning server context. -/
def createMatterAggregatorContext (storageCtx : Store) (randomHex : String) : Store :=
  let random := "AG" ++ randomHex
  let st := ctxSet storageCtx "aggregatorSerialNumber"
    (ctxGetD storageCtx "aggregatorSerialNumber" (StoreVal.s random))
  ctxSet st "aggregatorUniqueId" (ctxGetD st "aggregatorUniqueId" (StoreVal.s random))

/-- The per-process identity counters used when creating commissioning
servers: this.port, this.passcode, this.discriminator. -/
structure ServerIdState where
  port : Nat
  passcode : Option Nat
  discriminator : Option Nat
deriving DecidableEq, Repr

/-- The identity-relevant options passed to the CommissioningServer
constructor. -/
structure CommissioningServerOptions where
  port : Nat
  passcode : Option Nat
  discriminator : Option Nat
deriving DecidableEq, Repr

/-- Embedding of the counter handling in Matterbridge.createCommisioningServer:
the options receive port: this.port++ together with the current passcode and
discriminator; after construction passcode and discriminator are incremented
when they are defined. -/
def createCommisioningServer (ids : ServerIdState) :
    CommissioningServerOptions × ServerIdState :=
  (⟨ids.port, ids.passcode, ids.discriminator⟩,
   ⟨ids.port + 1, ids.passcode.map (· + 1), ids.discriminator.map (· + 1)⟩)

/-- The ports assigned by a sequence of commissioning-server creations in one
process run. -/
def serverPorts (ids : ServerIdState) : Nat → List Nat
  | 0 => []
  | Nat.succ m =>
    (createCommisioningServer ids).1.port :: serverPorts (createCommisioningServer ids).2 m

/-- A registered plugin (interface RegisteredPlugin).  JS optional booleans
are modelled as Bool with undefined mapped to false (both are falsy in every
guard of the source); the per-run counters registeredDevices and addedDevices
are `Option Int` because they may be undefined and JS decrement is unbounded.
The live platform instance is modelled by its presence (`hasPlatform`); the
plugin commissioning server and aggregator are modelled by the list of device
ids attached to them. -/
structure RegisteredPlugin where
  name : String
  type : String
  version : String
  description : String
  author : String
  enabled : Bool
  error : Bool
  locked : Bool
  loaded : Bool
  started : Bool
  configured : Bool
  paired : Bool
  connected : Bool
  registeredDevices : Option Int
  addedDevices : Option Int
  hasPlatform : Bool
  storageContext : Option Store
  commissioningServer : Option (List Nat)
  aggregator : Option (List Nat)
  device : Option Nat
deriving DecidableEq, Repr

/-- Embedding of Matterbridge.configurePlugin.  The outcome of the external
platform.onConfigure() hook is the parameter `onConfigureOk`; the returned
Bool records whether the hook was invoked.  The savePluginConfig flush on
success is an external effect with no orchestration state. -/
def configurePlugin (p : RegisteredPlugin) (onConfigureOk : Bool) :
    RegisteredPlugin × Bool :=
  if p.loaded = false ∨ p.started = false ∨ p.hasPlatform = false then (p, false)
  else if p.configured then (p, false)
  else if onConfigureOk then ({ p with configured := true }, true)
  else ({ p with error := true }, true)

/-- Embedding of Matterbridge.startPlugin.  The outcome of the external
platform.onStart(message) hook is the parameter `onStartOk`; the returned Bool
records whether the hook was invoked.  When `configure` is set, a successful
start chains into configurePlugin as in the source. -/
def startPlugin (p : RegisteredPlugin) (onStartOk : Bool)
    (configure : Bool) (onConfigureOk : Bool) : RegisteredPlugin × Bool :=
  if p.loaded = false ∨ p.hasPlatform = false then (p, false)
  else if p.started then (p, false)
  else if onStartOk then
    let p₁ : RegisteredPlugin := { p with started := true }
    (if configure then (configurePlugin p₁ onConfigureOk).1 else p₁, true)
  else ({ p with error := true }, true)

/-- The result of the dynamic import and default-export factory call inside
loadPlugin: on success the package metadata and platform type that the source
copies onto the plugin. -/
inductive ImportOutcome where
  | success (name version description author ptype : String)
  | noDefaultExport
  | failure
deriving DecidableEq, Repr

/-- What loadPlugin produces: the updated plugin, whether a platform instance
was returned to the caller, and whether the registry snapshot was written to
node storage. -/
structure LoadResult where
  plugin : RegisteredPlugin
  platformReturned : Bool
  snapshotSaved : Bool
deriving DecidableEq, Repr

/-- Embedding of Matterbridge.loadPlugin.  `nodeContextPresent` models whether
this.nodeContext is defined (the snapshot write uses optional chaining); when
`start` is set a successful load chains into startPlugin without awaiting it,
as in the source. -/
def loadPlugin (p : RegisteredPlugin) (outcome : ImportOutcome)
    (nodeContextPresent : Bool) (start : Bool) (onStartOk : Bool) : LoadResult :=
  if p.enabled = false then ⟨p, false, false⟩
  else if p.hasPlatform then ⟨p, true, false⟩
  else
    match outcome with
    | ImportOutcome.success pname pversion pdescription pauthor ptype =>
      let p₁ : RegisteredPlugin := { p with
        name := pname, description := pdescription, version := pversion,
        author := pauthor, type := ptype, hasPlatform := true, loaded := true,
        registeredDevices := some 0, addedDevices := some 0 }
      let p₂ := if start then (startPlugin p₁ onStartOk false true).1 else p₁
      ⟨p₂, true, nodeContextPresent⟩
    | ImportOutcome.noDefaultExport => ⟨{ p with error := true }, false, false⟩
    | ImportOutcome.failure => ⟨{ p with error := true }, false, false⟩

/-- A device handed over by a plugin, with the basic-information attributes
the topology manager reads when importing a commissioning server context.
`id` models JS object identity. -/
structure MbDevice where
  id : Nat
  deviceType : Nat
  nodeLabel : String
  vendorId : Nat
  vendorName : String
  productId : Nat
  productName : String
  serialNumber : Option String
  uniqueId : Option String
  softwareVersion : Nat
  softwareVersionString : String
  hardwareVersion : Nat
  hardwareVersionString : String
deriving DecidableEq, Repr

/-- Storing a possibly-undefined attribute value. -/
def optStr : Option String → StoreVal
  | some v => StoreVal.s v
  | none => StoreVal.undef

/-- Embedding of Matterbridge.importCommissioningServerContext: every key is
overwritten from the basic-information attributes of the device itself. -/
def importCommissioningServerContext (storageCtx : Store) (d : MbDevice) : Store :=
  let st := ctxSet storageCtx "deviceName" (StoreVal.s d.nodeLabel)
  let st := ctxSet st "deviceType" (StoreVal.n d.deviceType)
  let st := ctxSet st "vendorId" (StoreVal.n d.vendorId)
  let st := ctxSet st "vendorName" (StoreVal.s d.vendorName)
  let st := ctxSet st "productId" (StoreVal.n d.productId)
  let st := ctxSet st "productName" (StoreVal.s d.productName)
  let st := ctxSet st "nodeLabel" (StoreVal.s d.nodeLabel)
  let st := ctxSet st "productLabel" (StoreVal.s d.nodeLabel)
  let st := ctxSet st "serialNumber" (optStr d.serialNumber)
  let st := ctxSet st "uniqueId" (optStr d.uniqueId)
  let st := ctxSet st "softwareVersion" (StoreVal.n d.softwareVersion)
  let st := ctxSet st "softwareVersionString" (StoreVal.s d.softwareVersionString)
  let st := ctxSet st "hardwareVersion" (StoreVal.n d.hardwareVersion)
  ctxSet st "hardwareVersionString" (StoreVal.s d.hardwareVersionString)

/-- The orchestration state of the Matterbridge instance that the device
registry and topology manager read and write: operating mode, plugin
registry, device registry ({plugin, device} pairs), the shared aggregator of
bridge mode (present with its attached device ids, or absent), the devices
marked unreachable, the commissioning-server identity counters, the storage
manager (one persisted context per name) and the version strings used for
synthetic contexts. -/
structure MBState where
  bridgeMode : String
  registeredPlugins : List RegisteredPlugin
  registeredDevices : List (String × Nat)
  matterAggregator : Option (List Nat)
  unreachable : List Nat
  ids : ServerIdState
  storage : List (String × Store)
  matterbridgeVersion : String
  osRelease : String
deriving DecidableEq, Repr

/-- storageManager.createContext(name): the persisted context for that name
(empty when nothing was persisted yet). -/
def storageContextOf : List (String × Store) → String → Store
  | [], _ => []
  | (k, ctx) :: rest, name => if k = name then ctx else storageContextOf rest name

/-- Write back a persisted context under its name. -/
def storageContextSet : List (String × Store) → String → Store → List (String × Store)
  | [], name, ctx => [(name, ctx)]
  | (k, c) :: rest, name, ctx =>
    if k = name then (name, ctx) :: rest else (k, c) :: storageContextSet rest name ctx

/-- Embedding of this.registeredPlugins.find / this.findPlugin. -/
def findPlugin (st : MBState) (name : String) : Option RegisteredPlugin :=
  st.registeredPlugins.find? (fun p => p.name == name)

/-- In-place mutation of the plugin object found by name: replace the first
entry with that name. -/
def updateFirst (ps : List RegisteredPlugin) (name : String)
    (f : RegisteredPlugin → RegisteredPlugin) : List RegisteredPlugin :=
  match ps with
  | [] => []
  | p :: rest => if p.name == name then f p :: rest else p :: updateFirst rest name f

/-- DeviceTypes.AGGREGATOR.code. -/
def aggregatorDeviceTypeCode : Nat := 0x000e

/-- plugin.registeredDevices++ / plugin.addedDevices++ (each guarded by the
counter being defined). -/
def bumpCounters (p : RegisteredPlugin) : RegisteredPlugin :=
  { p with registeredDevices := p.registeredDevices.map (fun k => k + 1),
           addedDevices := p.addedDevices.map (fun k => k + 1) }

/-- plugin.registeredDevices-- / plugin.addedDevices-- (each guarded by the
counter being defined). -/
def decCounters (p : RegisteredPlugin) : RegisteredPlugin :=
  { p with registeredDevices := p.registeredDevices.map (fun k => k - 1),
           addedDevices := p.addedDevices.map (fun k => k - 1) }

/-- The mode-dependent topology section of Matterbridge.addBridgedDevice
(lines between the plugin lookup and the final registration): in bridge mode
the device is attached to the shared aggregator; in childbridge mode the
first device of an AccessoryPlatform plugin imports the storage context from
the device and creates the commissioning server holding the device itself,
while a DynamicPlatform plugin creates its synthetic context, commissioning
server and aggregator on first device and attaches every device to its
aggregator.  Returns the mutated plugin object and state. -/
def addBridgedDeviceTopology (st : MBState) (plugin : RegisteredPlugin)
    (d : MbDevice) (csRandomHex agRandomHex : String) :
    RegisteredPlugin × MBState :=
  let st₁ := if st.bridgeMode = "bridge" then
      { st with matterAggregator := st.matterAggregator.map (fun ds => ds ++ [d.id]) }
    else st
  if st.bridgeMode = "childbridge" then
    let acc :=
      if plugin.type = "AccessoryPlatform" ∧ plugin.locked = false then
        let ctx := importCommissioningServerContext
          (storageContextOf st₁.storage plugin.name) d
        ({ plugin with
            locked := true, storageContext := some ctx,
            commissioningServer := some [d.id], device := some d.id },
         { st₁ with
            storage := storageContextSet st₁.storage plugin.name ctx,
            ids := (createCommisioningServer st₁.ids).2 })
      else (plugin, st₁)
    if acc.1.type = "DynamicPlatform" then
      let dyn :=
        if acc.1.locked = false then
          let ctx := createCommissioningServerContext
            (storageContextOf acc.2.storage acc.1.name) csRandomHex
            "Matterbridge" aggregatorDeviceTypeCode 0xfff1 "Matterbridge" 0x8000
            acc.1.description acc.2.matterbridgeVersion acc.2.osRelease
          let ctx := createMatterAggregatorContext ctx agRandomHex
          ({ acc.1 with
              locked := true, storageContext := some ctx,
              commissioningServer := some [], aggregator := some [] },
           { acc.2 with
              storage := storageContextSet acc.2.storage acc.1.name ctx,
              ids := (createCommisioningServer acc.2.ids).2 })
        else acc
      ({ dyn.1 with aggregator := dyn.1.aggregator.map (fun ds => ds ++ [d.id]) },
       dyn.2)
    else acc
  else (plugin, st₁)

/-- Embedding of Matterbridge.addBridgedDevice: guard on the missing shared
aggregator in bridge mode, plugin lookup, topology section, then the
unconditional registration: push {plugin, device} onto the device registry
and increment both counters when defined. -/
def addBridgedDevice (st : MBState) (pluginName : String) (d : MbDevice)
    (csRandomHex agRandomHex : String) : MBState :=
  if st.bridgeMode = "bridge" ∧ st.matterAggregator = none then st
  else
    match findPlugin st pluginName with
    | none => st
    | some plugin =>
      let t := addBridgedDeviceTopology st plugin d csRandomHex agRandomHex
      { t.2 with
        registeredPlugins := updateFirst t.2.registeredPlugins pluginName
          (fun _ => bumpCounters t.1),
        registeredDevices := t.2.registeredDevices ++ [(pluginName, d.id)] }

/-- The JS forEach-with-splice loop over this.registeredDevices: removing an
entry shifts the array so the element moved into the removed slot is skipped
by the iteration. -/
def spliceDevice (d : Nat) : List (String × Nat) → List (String × Nat)
  | [] => []
  | e :: rest =>
    if e.2 = d then
      match rest with
      | [] => []
      | e' :: rest' => e' :: spliceDevice d rest'
    else e :: spliceDevice d rest

/-- Embedding of Matterbridge.removeBridgedDevice: guards (missing shared
aggregator in bridge mode, unknown plugin, missing plugin aggregator or
plugin not connected in childbridge mode), then in bridge mode mark the
device unreachable, detach it from the shared aggregator, splice it out of
the device registry and decrement both counters; in childbridge mode only a
DynamicPlatform plugin has the device spliced out, marked unreachable and
detached from the plugin aggregator, and both counters are decremented for
either plugin type. -/
def removeBridgedDevice (st : MBState) (pluginName : String) (d : MbDevice) :
    MBState :=
  if st.bridgeMode = "bridge" ∧ st.matterAggregator = none then st
  else
    match findPlugin st pluginName with
    | none => st
    | some plugin =>
      if st.bridgeMode = "childbridge" ∧ plugin.aggregator = none then st
      else if st.bridgeMode = "childbridge" ∧ plugin.connected = false then st
      else
        let st₁ :=
          if st.bridgeMode = "bridge" then
            { st with
              unreachable := st.unreachable ++ [d.id],
              matterAggregator := st.matterAggregator.map (fun ds => ds.erase d.id),
              registeredDevices := spliceDevice d.id st.registeredDevices,
              registeredPlugins := updateFirst st.registeredPlugins pluginName decCounters }
          else st
        if st.bridgeMode = "childbridge" then
          let st₂ :=
            if plugin.type = "DynamicPlatform" then
              { st₁ with
                registeredDevices := spliceDevice d.id st₁.registeredDevices,
                unreachable := st₁.unreachable ++ [d.id],
                registeredPlugins := updateFirst st₁.registeredPlugins pluginName
                  (fun p => { p with
                    aggregator := p.aggregator.map (fun ds => ds.erase d.id) }) }
            else st₁
          { st₂ with
            registeredPlugins := updateFirst st₂.registeredPlugins pluginName decCounters }
        else st₁

/-- The lifecycle flag invariant of the data model: configured implies started
implies loaded. -/
def flagsInv (p : RegisteredPlugin) : Prop :=
  (p.configured = true → p.started = true) ∧ (p.started = true → p.loaded = true)

/-- A concrete plugin record used by witnesses and counterexamples. -/
def samplePlugin : RegisteredPlugin :=
  { name := "matterbridge-example", type := "DynamicPlatform", version := "1.0.0",
    description := "Example plugin", author := "example",
    enabled := true, error := false, locked := false, loaded := false,
    started := false, configured := false, paired := false, connected := false,
    registeredDevices := none, addedDevices := none, hasPlatform := false,
    storageContext := none, commissioningServer := none, aggregator := none,
    device := none }

/-- A concrete already-started plugin. -/
def startedSamplePlugin : RegisteredPlugin :=
  { samplePlugin with
    loaded := true, hasPlatform := true, started := true }

/-- A concrete already-configured plugin. -/
def configuredSamplePlugin : RegisteredPlugin :=
  { samplePlugin with
    loaded := true, hasPlatform := true, started := true, configured := true }

/-- The action a single poll of the startMatterbridge supervisor interval
takes: clear the interval because a plugin is in error, keep waiting (return
without starting), or clear the interval and hand off to startMatterServer. -/
inductive PollAction where
  | abort
  | waiting
  | startServer
deriving DecidableEq, Repr

/-- One poll of the bridge-mode startMatterInterval of
Matterbridge.startMatterbridge: scan the registry in order; skip disabled
plugins; an errored plugin clears the interval; a plugin not yet loaded and
started increments failCount, is marked errored once failCount exceeds 30,
and ends the poll immediately; only when the whole scan passes does
startMatterServer run.  Returns the action, the plugin list and the new
failCount. -/
def bridgePoll : List RegisteredPlugin → Nat →
    PollAction × List RegisteredPlugin × Nat
  | [], failCount => (PollAction.startServer, [], failCount)
  | p :: rest, failCount =>
    if p.enabled = false then
      let r := bridgePoll rest failCount
      (r.1, p :: r.2.1, r.2.2)
    else if p.error then (PollAction.abort, p :: rest, failCount)
    else if p.loaded = false ∨ p.started = false then
      if failCount + 1 > 30 then
        (PollAction.waiting, { p with error := true } :: rest, failCount + 1)
      else (PollAction.waiting, p :: rest, failCount + 1)
    else
      let r := bridgePoll rest failCount
      (r.1, p :: r.2.1, r.2.2)

/-- One poll of the childbridge-mode startMatterInterval: like the bridge
poll, but a plugin that is not yet loaded and started only clears the
allStarted flag (incrementing failCount and possibly marking the plugin
errored) and the scan continues, so an errored plugin later in the registry
is still seen on the same poll. -/
def childbridgePoll : List RegisteredPlugin → Nat → Bool →
    PollAction × List RegisteredPlugin × Nat
  | [], failCount, allStarted =>
    ((if allStarted then PollAction.startServer else PollAction.waiting),
      [], failCount)
  | p :: rest, failCount, allStarted =>
    if p.enabled = false then
      let r := childbridgePoll rest failCount allStarted
      (r.1, p :: r.2.1, r.2.2)
    else if p.error then (PollAction.abort, p :: rest, failCount)
    else if p.loaded = false ∨ p.started = false then
      let p₁ := if failCount + 1 > 30 then { p with error := true } else p
      let r := childbridgePoll rest (failCount + 1) false
      (r.1, p₁ :: r.2.1, r.2.2)
    else
      let r := childbridgePoll rest failCount allStarted
      (r.1, p :: r.2.1, r.2.2)

/-- The process-lifecycle events emitted at the end of cleanup. -/
inductive LifecycleEvent where
  | update
  | restart
  | shutdown
deriving DecidableEq, Repr

/-- The part of the instance state that Matterbridge.cleanup reads and
writes: the re-entrancy guard, the singleton instance handle, and the two
registries. -/
structure CleanupState where
  hasCleanupStarted : Bool
  instancePresent : Bool
  registeredPlugins : List RegisteredPlugin
  registeredDevices : List (String × Nat)
deriving DecidableEq, Repr

/-- What a cleanup invocation produces: the final state, the emitted
lifecycle event if any, and whether the matter storage file and the node
storage directory were deleted. -/
structure CleanupOutcome where
  state : CleanupState
  emitted : Option LifecycleEvent
  matterStorageFileDeleted : Bool
  nodeStorageDirDeleted : Bool
deriving DecidableEq, Repr

/-- Embedding of Matterbridge.cleanup(message, restart).  Signal handlers,
timers, plugin shutdown hooks and server closes are external effects; after
the first grace delay the registries are cleared; after the second grace
delay the destructive reset actions run for their exact messages, at most
one lifecycle event is emitted, the singleton instance handle is cleared on
the emitting paths, and the re-entrancy guard is reset. -/
def cleanup (st : CleanupState) (message : String) (restart : Bool) :
    CleanupOutcome :=
  if st.hasCleanupStarted then ⟨st, none, false, false⟩
  else
    let st₁ : CleanupState := { st with
      hasCleanupStarted := true, registeredPlugins := [],
      registeredDevices := [] }
    if restart then
      if message = "updating..." then
        ⟨{ st₁ with instancePresent := false, hasCleanupStarted := false },
          some LifecycleEvent.update, false, false⟩
      else if message = "restarting..." then
        ⟨{ st₁ with instancePresent := false, hasCleanupStarted := false },
          some LifecycleEvent.restart, false, false⟩
      else ⟨{ st₁ with hasCleanupStarted := false }, none, false, false⟩
    else
      ⟨{ st₁ with instancePresent := false, hasCleanupStarted := false },
        some LifecycleEvent.shutdown,
        message == "shutting down with reset..." ||
          message == "shutting down with factory reset...",
        message == "shutting down with factory reset..."⟩

/-- A concrete device used by witnesses and counterexamples. -/
def sampleDevice (i : Nat) : MbDevice :=
  { id := i, deviceType := 0x0101, nodeLabel := "light", vendorId := 0xfff1,
    vendorName := "Lum", productId := 1, productName := "Bulb",
    serialNumber := some "SN1", uniqueId := some "UID1", softwareVersion := 1,
    softwareVersionString := "1.0.0", hardwareVersion := 1,
    hardwareVersionString := "1.0.0" }

/-- A concrete AccessoryPlatform plugin that already contributed its first
device (locked). -/
def lockedAccessoryPlugin : RegisteredPlugin :=
  { samplePlugin with
    name := "acc", type := "AccessoryPlatform", locked := true, loaded := true,
    hasPlatform := true, registeredDevices := some 1, addedDevices := some 1,
    commissioningServer := some [7], device := some 7 }

/-- A concrete childbridge state holding the locked accessory plugin and its
first device. -/
def lockedAccessoryState : MBState :=
  { bridgeMode := "childbridge", registeredPlugins := [lockedAccessoryPlugin],
    registeredDevices := [("acc", 7)], matterAggregator := none,
    unreachable := [], ids := ⟨5541, none, none⟩, storage := [],
    matterbridgeVersion := "1.6.5", osRelease := "6.5.0" }

/-- A concrete DynamicPlatform plugin with an aggregator but no connected
controller. -/
def notConnectedPlugin : RegisteredPlugin :=
  { samplePlugin with
    name := "dyn", loaded := true, hasPlatform := true, locked := true,
    aggregator := some [], registeredDevices := some 0, addedDevices := some 0 }

/-- A concrete childbridge state holding the not-connected dynamic plugin. -/
def childbridgeState : MBState :=
  { bridgeMode := "childbridge", registeredPlugins := [notConnectedPlugin],
    registeredDevices := [], matterAggregator := none, unreachable := [],
    ids := ⟨5540, none, none⟩, storage := [], matterbridgeVersion := "1.6.5",
    osRelease := "6.5.0" }

/-- A concrete connected DynamicPlatform plugin for the childbridge
round trip. -/
def connectedPlugin : RegisteredPlugin :=
  { samplePlugin with
    name := "dyn", loaded := true, hasPlatform := true, locked := true,
    connected := true, aggregator := some [],
    registeredDevices := some 0, addedDevices := some 0 }

/-- A concrete childbridge state holding the connected dynamic plugin. -/
def connectedChildbridgeState : MBState :=
  { bridgeMode := "childbridge", registeredPlugins := [connectedPlugin],
    registeredDevices := [], matterAggregator := none, unreachable := [],
    ids := ⟨5540, none, none⟩, storage := [], matterbridgeVersion := "1.6.5",
    osRelease := "6.5.0" }

/-- A concrete enabled plugin still waiting to load. -/
def waitingSamplePlugin : RegisteredPlugin :=
  { samplePlugin with name := "slow" }

/-- A concrete enabled plugin in error state. -/
def erroredSamplePlugin : RegisteredPlugin :=
  { samplePlugin with name := "bad", error := true }

theorem storeGet_ctxSet (st : Store) (k k' : String) (v : StoreVal) :
    storeGet (ctxSet st k v) k' = if k = k' then some v else storeGet st k' := by
  induction st with
  | nil => simp [ctxSet, storeGet]
  | cons hd tl ih =>
    obtain ⟨k₀, v₀⟩ := hd
    by_cases h : k₀ = k
    · subst h
      by_cases hk : k₀ = k'
      · subst hk; simp [ctxSet, storeGet]
      · simp [ctxSet, storeGet, hk]
    · by_cases hk : k = k'
      · subst hk
        simp [ctxSet, storeGet, h, ih]
      · by_cases hk₀ : k₀ = k'
        · subst hk₀; simp [ctxSet, storeGet, h, ih, hk]
        · simp [ctxSet, storeGet, h, ih, hk, hk₀]

theorem serverPorts_getD (ids : ServerIdState) (count i : Nat) (hi : i < count) :
    (serverPorts ids count).getD i 0 = ids.port + i := by
  induction count generalizing ids i with
  | zero => omega
  | succ m ih =>
    cases i with
    | zero => simp [serverPorts, createCommisioningServer]
    | succ j =>
      have hj : j < m := by omega
      simp only [serverPorts, createCommisioningServer, List.getD_cons_succ]
      rw [ih _ j hj]
      show ids.port + 1 + j = ids.port + (j + 1)
      omega

theorem find?_updateFirst (ps : List RegisteredPlugin) (name : String)
    (f : RegisteredPlugin → RegisteredPlugin) (p : RegisteredPlugin)
    (hfind : ps.find? (fun q => q.name == name) = some p)
    (hname : (f p).name = p.name) :
    (updateFirst ps name f).find? (fun q => q.name == name) = some (f p) := by
  induction ps with
  | nil => simp at hfind
  | cons hd tl ih =>
    by_cases h : hd.name == name
    · have hp : hd = p := by simpa [h] using hfind
      subst hp
      have hpred : ((f hd).name == name) = true := by
        rw [hname]; exact h
      simp [updateFirst, h, hpred]
    · have hfind' : tl.find? (fun q => q.name == name) = some p := by
        simpa [h] using hfind
      simp [updateFirst, h, ih hfind']

theorem bumpCounters_fields (p : RegisteredPlugin) :
    (bumpCounters p).name = p.name ∧ (bumpCounters p).type = p.type ∧
    (bumpCounters p).connected = p.connected ∧
    (bumpCounters p).aggregator = p.aggregator ∧
    (bumpCounters p).registeredDevices = p.registeredDevices.map (fun k => k + 1) ∧
    (bumpCounters p).addedDevices = p.addedDevices.map (fun k => k + 1) :=
  ⟨rfl, rfl, rfl, rfl, rfl, rfl⟩

theorem decCounters_bumpCounters_counters (p : RegisteredPlugin) :
    (decCounters (bumpCounters p)).registeredDevices = p.registeredDevices ∧
    (decCounters (bumpCounters p)).addedDevices = p.addedDevices := by
  cases hr : p.registeredDevices <;> cases ha : p.addedDevices <;>
    simp [decCounters, bumpCounters, hr, ha]

theorem addBridgedDeviceTopology_spec (st : MBState) (p : RegisteredPlugin)
    (d : MbDevice) (cs ag : String) :
    (addBridgedDeviceTopology st p d cs ag).1.registeredDevices = p.registeredDevices ∧
    (addBridgedDeviceTopology st p d cs ag).1.addedDevices = p.addedDevices ∧
    (addBridgedDeviceTopology st p d cs ag).1.name = p.name ∧
    (addBridgedDeviceTopology st p d cs ag).1.type = p.type ∧
    (addBridgedDeviceTopology st p d cs ag).1.connected = p.connected ∧
    (addBridgedDeviceTopology st p d cs ag).2.registeredPlugins = st.registeredPlugins ∧
    (addBridgedDeviceTopology st p d cs ag).2.bridgeMode = st.bridgeMode ∧
    (addBridgedDeviceTopology st p d cs ag).2.registeredDevices = st.registeredDevices ∧
    (addBridgedDeviceTopology st p d cs ag).2.matterAggregator =
      (if st.bridgeMode = "bridge" then
        st.matterAggregator.map (fun ds => ds ++ [d.id]) else st.matterAggregator) ∧
    (st.bridgeMode = "childbridge" → p.type = "DynamicPlatform" →
      (p.locked = true → p.aggregator ≠ none) →
      (addBridgedDeviceTopology st p d cs ag).1.aggregator ≠ none) := by
  by_cases hb : st.bridgeMode = "bridge" <;> by_cases hc : st.bridgeMode = "childbridge"
  · rw [hb] at hc; simp at hc
  · simp [addBridgedDeviceTopology, hb, hc]
  · by_cases ha : p.type = "AccessoryPlatform" ∧ p.locked = false
    · simp [addBridgedDeviceTopology, hb, hc, ha, ha.1]
    · by_cases hd2 : p.type = "DynamicPlatform"
      · by_cases hl : p.locked = false
        · simp [addBridgedDeviceTopology, hb, hc, ha, hd2, hl]
        · have hl' : p.locked = true := by
            cases hpl : p.locked
            · exact absurd hpl hl
            · rfl
          simp [addBridgedDeviceTopology, hb, hc, ha, hd2, hl, hl']
      · simp [addBridgedDeviceTopology, hb, hc, ha, hd2]
  · simp [addBridgedDeviceTopology, hb, hc]

theorem addBridgedDevice_spec (st : MBState) (pluginName : String) (d : MbDevice)
    (cs ag : String) (p : RegisteredPlugin)
    (hguard : ¬(st.bridgeMode = "bridge" ∧ st.matterAggregator = none))
    (hfind : findPlugin st pluginName = some p) :
    addBridgedDevice st pluginName d cs ag =
      { (addBridgedDeviceTopology st p d cs ag).2 with
        registeredPlugins := updateFirst
          (addBridgedDeviceTopology st p d cs ag).2.registeredPlugins pluginName
          (fun _ => bumpCounters (addBridgedDeviceTopology st p d cs ag).1),
        registeredDevices :=
          (addBridgedDeviceTopology st p d cs ag).2.registeredDevices
            ++ [(pluginName, d.id)] } := by
  unfold addBridgedDevice
  rw [if_neg hguard, hfind]

theorem findPlugin_after_add (st : MBState) (pluginName : String) (d : MbDevice)
    (cs ag : String) (p : RegisteredPlugin)
    (hguard : ¬(st.bridgeMode = "bridge" ∧ st.matterAggregator = none))
    (hfind : findPlugin st pluginName = some p) :
    findPlugin (addBridgedDevice st pluginName d cs ag) pluginName =
      some (bumpCounters (addBridgedDeviceTopology st p d cs ag).1) := by
  rw [addBridgedDevice_spec st pluginName d cs ag p hguard hfind]
  have hspec := addBridgedDeviceTopology_spec st p d cs ag
  show (updateFirst (addBridgedDeviceTopology st p d cs ag).2.registeredPlugins
      pluginName (fun _ => bumpCounters (addBridgedDeviceTopology st p d cs ag).1)).find?
      (fun q => q.name == pluginName) =
    some (bumpCounters (addBridgedDeviceTopology st p d cs ag).1)
  rw [hspec.2.2.2.2.2.1]
  exact find?_updateFirst st.registeredPlugins pluginName _ p
    (by simpa [findPlugin] using hfind)
    (by rw [(bumpCounters_fields _).1, hspec.2.2.1])

theorem removeBridgedDevice_eq_of_agg_none (st : MBState) (pluginName : String)
    (d : MbDevice) (p : RegisteredPlugin)
    (hmode : st.bridgeMode = "childbridge")
    (hfind : findPlugin st pluginName = some p)
    (hagg : p.aggregator = none) :
    removeBridgedDevice st pluginName d = st := by
  simp [removeBridgedDevice, hfind, hmode, hagg]

theorem removeBridgedDevice_eq_of_not_connected (st : MBState)
    (pluginName : String) (d : MbDevice) (p : RegisteredPlugin)
    (hmode : st.bridgeMode = "childbridge")
    (hfind : findPlugin st pluginName = some p)
    (hconn : p.connected = false) :
    removeBridgedDevice st pluginName d = st := by
  by_cases hagg : p.aggregator = none <;>
    simp [removeBridgedDevice, hfind, hmode, hagg, hconn]

theorem removeBridgedDevice_eq_other_mode (st : MBState) (pluginName : String)
    (d : MbDevice) (p : RegisteredPlugin)
    (hb : st.bridgeMode ≠ "bridge") (hc : st.bridgeMode ≠ "childbridge")
    (hfind : findPlugin st pluginName = some p) :
    removeBridgedDevice st pluginName d = st := by
  simp [removeBridgedDevice, hfind, hb, hc]

theorem removeBridgedDevice_spec_bridge (st : MBState) (pluginName : String)
    (d : MbDevice) (p : RegisteredPlugin)
    (hmode : st.bridgeMode = "bridge") (hagg : st.matterAggregator ≠ none)
    (hfind : findPlugin st pluginName = some p) :
    removeBridgedDevice st pluginName d =
      { st with
        unreachable := st.unreachable ++ [d.id],
        matterAggregator := st.matterAggregator.map (fun ds => ds.erase d.id),
        registeredDevices := spliceDevice d.id st.registeredDevices,
        registeredPlugins := updateFirst st.registeredPlugins pluginName decCounters } := by
  simp [removeBridgedDevice, hfind, hmode, hagg]

theorem removeBridgedDevice_spec_childbridge (st : MBState) (pluginName : String)
    (d : MbDevice) (p : RegisteredPlugin)
    (hmode : st.bridgeMode = "childbridge")
    (hfind : findPlugin st pluginName = some p)
    (htype : p.type = "DynamicPlatform")
    (hagg : p.aggregator ≠ none) (hconn : p.connected = true) :
    removeBridgedDevice st pluginName d =
      { st with
        registeredDevices := spliceDevice d.id st.registeredDevices,
        unreachable := st.unreachable ++ [d.id],
        registeredPlugins := updateFirst
          (updateFirst st.registeredPlugins pluginName
            (fun q => { q with
              aggregator := q.aggregator.map (fun ds => ds.erase d.id) }))
          pluginName decCounters } := by
  simp [removeBridgedDevice, hfind, hmode, htype, hagg, hconn]

theorem removeBridgedDevice_spec_childbridge_accessory (st : MBState)
    (pluginName : String) (d : MbDevice) (p : RegisteredPlugin)
    (hmode : st.bridgeMode = "childbridge")
    (hfind : findPlugin st pluginName = some p)
    (htype : p.type ≠ "DynamicPlatform")
    (hagg : p.aggregator ≠ none) (hconn : p.connected = true) :
    removeBridgedDevice st pluginName d =
      { st with
        registeredPlugins := updateFirst st.registeredPlugins pluginName decCounters } := by
  simp [removeBridgedDevice, hfind, hmode, htype, hagg, hconn]

theorem map_add_one_sub_one (o : Option Int) :
    (o.map (fun k => k + 1)).map (fun k => k - 1) = o := by
  cases o <;> simp

theorem findPlugin_addBridgedDevice_cases (st : MBState) (pluginName : String)
    (d : MbDevice) (cs ag : String) (p : RegisteredPlugin)
    (hfind : findPlugin st pluginName = some p) :
    findPlugin (addBridgedDevice st pluginName d cs ag) pluginName = some p ∨
    ∃ q : RegisteredPlugin, q.registeredDevices = p.registeredDevices ∧
      q.addedDevices = p.addedDevices ∧
      findPlugin (addBridgedDevice st pluginName d cs ag) pluginName =
        some (bumpCounters q) := by
  by_cases hguard : st.bridgeMode = "bridge" ∧ st.matterAggregator = none
  · left
    unfold addBridgedDevice
    rw [if_pos hguard]
    exact hfind
  · right
    have hspec := addBridgedDeviceTopology_spec st p d cs ag
    exact ⟨(addBridgedDeviceTopology st p d cs ag).1, hspec.1, hspec.2.1,
      findPlugin_after_add st pluginName d cs ag p hguard hfind⟩

theorem findPlugin_removeBridgedDevice_cases (st : MBState) (pluginName : String)
    (d : MbDevice) (p : RegisteredPlugin)
    (hfind : findPlugin st pluginName = some p) :
    findPlugin (removeBridgedDevice st pluginName d) pluginName = some p ∨
    ∃ q : RegisteredPlugin, q.registeredDevices = p.registeredDevices ∧
      q.addedDevices = p.addedDevices ∧
      findPlugin (removeBridgedDevice st pluginName d) pluginName =
        some (decCounters q) := by
  by_cases hguard : st.bridgeMode = "bridge" ∧ st.matterAggregator = none
  · left
    unfold removeBridgedDevice
    rw [if_pos hguard]
    exact hfind
  · by_cases hb : st.bridgeMode = "bridge"
    · have hagg : st.matterAggregator ≠ none := by
        intro h; exact hguard ⟨hb, h⟩
      right
      refine ⟨p, rfl, rfl, ?_⟩
      rw [removeBridgedDevice_spec_bridge st pluginName d p hb hagg hfind]
      show (updateFirst st.registeredPlugins pluginName decCounters).find?
          (fun q => q.name == pluginName) = some (decCounters p)
      exact find?_updateFirst st.registeredPlugins pluginName _ p
        (by simpa [findPlugin] using hfind) rfl
    · by_cases hc : st.bridgeMode = "childbridge"
      · by_cases hagg : p.aggregator = none
        · left
          rw [removeBridgedDevice_eq_of_agg_none st pluginName d p hc hfind hagg]
          exact hfind
        · by_cases hconn : p.connected = false
          · left
            rw [removeBridgedDevice_eq_of_not_connected st pluginName d p hc hfind hconn]
            exact hfind
          · have hconn' : p.connected = true := by
              cases h : p.connected
              · exact absurd h hconn
              · rfl
            by_cases htype : p.type = "DynamicPlatform"
            · right
              refine ⟨{ p with
                  aggregator := p.aggregator.map (fun ds => ds.erase d.id) },
                rfl, rfl, ?_⟩
              rw [removeBridgedDevice_spec_childbridge st pluginName d p hc hfind
                htype hagg hconn']
              show (updateFirst (updateFirst st.registeredPlugins pluginName _)
                  pluginName decCounters).find? (fun q => q.name == pluginName) = _
              have step1 := find?_updateFirst st.registeredPlugins pluginName
                (fun q => { q with
                  aggregator := q.aggregator.map (fun ds => ds.erase d.id) }) p
                (by simpa [findPlugin] using hfind) rfl
              exact find?_updateFirst _ pluginName decCounters _ step1 rfl
            · right
              refine ⟨p, rfl, rfl, ?_⟩
              rw [removeBridgedDevice_spec_childbridge_accessory st pluginName d p
                hc hfind htype hagg hconn']
              show (updateFirst st.registeredPlugins pluginName decCounters).find?
                  (fun q => q.name == pluginName) = some (decCounters p)
              exact find?_updateFirst st.registeredPlugins pluginName _ p
                (by simpa [findPlugin] using hfind) rfl
      · left
        rw [removeBridgedDevice_eq_other_mode st pluginName d p hb hc hfind]
        exact hfind

theorem flagsInv_configurePlugin (p : RegisteredPlugin) (hk : Bool)
    (hp : flagsInv p) : flagsInv (configurePlugin p hk).1 := by
  unfold configurePlugin
  by_cases h1 : p.loaded = false ∨ p.started = false ∨ p.hasPlatform = false
  · simpa [h1] using hp
  · simp only [not_or, Bool.not_eq_false] at h1
    obtain ⟨hl, hs, hpf⟩ := h1
    by_cases h2 : p.configured
    · simpa [hl, hs, hpf, h2] using hp
    · cases hk
      · simp [hl, hs, hpf, h2, flagsInv]
      · simp [hl, hs, hpf, h2, flagsInv]

theorem flagsInv_startPlugin (p : RegisteredPlugin) (hk c ck : Bool)
    (hp : flagsInv p) : flagsInv (startPlugin p hk c ck).1 := by
  unfold startPlugin
  by_cases h1 : p.loaded = false ∨ p.hasPlatform = false
  · simpa [h1] using hp
  · simp only [not_or, Bool.not_eq_false] at h1
    obtain ⟨hl, hpf⟩ := h1
    by_cases h2 : p.started
    · simpa [hl, hpf, h2] using hp
    · cases hk
      · simpa [hl, hpf, h2, flagsInv] using hp
      · have hp₁ : flagsInv ({ p with started := true } : RegisteredPlugin) := by
          simp [flagsInv, hl]
        cases c
        · simpa [hl, hpf, h2] using hp₁
        · simpa [hl, hpf, h2] using flagsInv_configurePlugin _ ck hp₁

theorem flagsInv_loadPlugin (p : RegisteredPlugin) (outcome : ImportOutcome)
    (nodeCtx start onStartOk : Bool) (hp : flagsInv p) :
    flagsInv (loadPlugin p outcome nodeCtx start onStartOk).plugin := by
  unfold loadPlugin
  by_cases h1 : p.enabled = false
  · simpa [h1] using hp
  · by_cases h2 : p.hasPlatform
    · simpa [h1, h2] using hp
    · cases outcome with
      | success a b c d e =>
        have hp₁ : flagsInv ({ p with
            name := a, description := c, version := b, author := d, type := e,
            hasPlatform := true, loaded := true,
            registeredDevices := some 0, addedDevices := some 0 } :
            RegisteredPlugin) := by
          refine ⟨fun hc => hp.1 hc, fun _ => rfl⟩
        cases start
        · simpa [h1, h2] using hp₁
        · simpa [h1, h2] using flagsInv_startPlugin _ onStartOk false true hp₁
      | noDefaultExport => simpa [h1, h2, flagsInv] using hp
      | failure => simpa [h1, h2, flagsInv] using hp

/-- Claim C2: for every plugin, after each orchestrator operation (loadPlugin,
startPlugin, configurePlugin) the flags satisfy configured implies started and
started implies loaded: all three operations preserve the invariant for every
plugin state and every hook outcome. -/
theorem lifecycle_flags_invariant_preserved
    (p : RegisteredPlugin) (outcome : ImportOutcome)
    (nodeCtx start onStartOk hk c ck hc : Bool) (hp : flagsInv p) :
    flagsInv (loadPlugin p outcome nodeCtx start onStartOk).plugin ∧
    flagsInv (startPlugin p hk c ck).1 ∧
    flagsInv (configurePlugin p hc).1 :=
  ⟨flagsInv_loadPlugin p outcome nodeCtx start onStartOk hp,
   flagsInv_startPlugin p hk c ck hp,
   flagsInv_configurePlugin p hc hp⟩

/-- Witness for claim C2 on a concrete plugin. -/
theorem lifecycle_flags_invariant_preserved_witness :
    flagsInv (loadPlugin samplePlugin
      (ImportOutcome.success "matterbridge-example" "1.0.0" "Example plugin"
        "example" "DynamicPlatform") true true true).plugin :=
  (lifecycle_flags_invariant_preserved samplePlugin
      (ImportOutcome.success "matterbridge-example" "1.0.0" "Example plugin"
        "example" "DynamicPlatform") true true true false false false false
      ⟨fun h => by simp [samplePlugin] at h, fun h => by simp [samplePlugin] at h⟩).1

/-- Claim C7: startPlugin on an already-started plugin, and configurePlugin on
an already-configured plugin, are no-ops: the plugin is returned unchanged
(no lifecycle flag changes) and the onStart/onConfigure hook is not invoked. -/
theorem startPlugin_configurePlugin_idempotent
    (p q : RegisteredPlugin) (hk c ck hc : Bool)
    (hs : p.started = true) (hcfg : q.configured = true) :
    startPlugin p hk c ck = (p, false) ∧ configurePlugin q hc = (q, false) := by
  constructor
  · unfold startPlugin
    by_cases h1 : p.loaded = false ∨ p.hasPlatform = false
    · simp [h1]
    · simp [h1, hs]
  · unfold configurePlugin
    by_cases h1 : q.loaded = false ∨ q.started = false ∨ q.hasPlatform = false
    · simp [h1]
    · simp [h1, hcfg]

/-- Witness for claim C7 on concrete started and configured plugins. -/
theorem startPlugin_configurePlugin_idempotent_witness :
    startPlugin startedSamplePlugin true false false = (startedSamplePlugin, false) ∧
    configurePlugin configuredSamplePlugin true = (configuredSamplePlugin, false) :=
  startPlugin_configurePlugin_idempotent startedSamplePlugin configuredSamplePlugin
    true false false true (by decide) (by decide)

/-- Counterexample to claim C6: loadPlugin on a disabled plugin returns no
platform but does not set error=true, and loadPlugin on a plugin whose
platform instance already exists returns the existing platform (not no
platform) and does not set error=true. -/
theorem loadPlugin_failure_modes_counterexample :
    (loadPlugin { samplePlugin with enabled := false } ImportOutcome.failure
        true false false).plugin.error = false ∧
    (loadPlugin { samplePlugin with hasPlatform := true } ImportOutcome.failure
        true false false).platformReturned = true ∧
    (loadPlugin { samplePlugin with hasPlatform := true } ImportOutcome.failure
        true false false).plugin.error = false := by
  decide

theorem startPlugin_frame (p : RegisteredPlugin) (hk c ck : Bool) :
    (startPlugin p hk c ck).1.loaded = p.loaded ∧
    (startPlugin p hk c ck).1.hasPlatform = p.hasPlatform ∧
    (startPlugin p hk c ck).1.registeredDevices = p.registeredDevices ∧
    (startPlugin p hk c ck).1.addedDevices = p.addedDevices := by
  unfold startPlugin configurePlugin
  by_cases h1 : p.loaded = false ∨ p.hasPlatform = false
  · simp [h1]
  · by_cases h2 : p.started
    · simp [h1, h2]
    · cases hk
      · simp [h1, h2]
      · cases c
        · simp [h1, h2]
        · cases ck <;> by_cases h3 : p.configured <;> simp [h1, h2, h3]

/-- Claim C6 as amended: loadPlugin returns no platform and leaves the plugin
unchanged (error is not set) when the plugin is disabled; returns the existing
platform and leaves the plugin unchanged when a platform instance already
exists; on import failure or a missing default export sets error=true and
returns no platform; on success stores the platform instance, marks
loaded=true, resets both device counters to zero, returns the platform, and
writes the registry snapshot exactly when the node storage context is
present. -/
theorem loadPlugin_behavior (p : RegisteredPlugin) (outcome : ImportOutcome)
    (nodeCtx start onStartOk : Bool) (a b c d e : String) :
    (p.enabled = false → loadPlugin p outcome nodeCtx start onStartOk = ⟨p, false, false⟩) ∧
    (p.enabled = true → p.hasPlatform = true →
      loadPlugin p outcome nodeCtx start onStartOk = ⟨p, true, false⟩) ∧
    (p.enabled = true → p.hasPlatform = false →
      outcome = ImportOutcome.noDefaultExport ∨ outcome = ImportOutcome.failure →
      loadPlugin p outcome nodeCtx start onStartOk =
        ⟨{ p with error := true }, false, false⟩) ∧
    (p.enabled = true → p.hasPlatform = false →
      outcome = ImportOutcome.success a b c d e →
      (loadPlugin p outcome nodeCtx start onStartOk).plugin.loaded = true ∧
      (loadPlugin p outcome nodeCtx start onStartOk).plugin.hasPlatform = true ∧
      (loadPlugin p outcome nodeCtx start onStartOk).plugin.registeredDevices = some 0 ∧
      (loadPlugin p outcome nodeCtx start onStartOk).plugin.addedDevices = some 0 ∧
      (loadPlugin p outcome nodeCtx start onStartOk).platformReturned = true ∧
      (loadPlugin p outcome nodeCtx start onStartOk).snapshotSaved = nodeCtx) := by
  refine ⟨?_, ?_, ?_, ?_⟩
  · intro h1; simp [loadPlugin, h1]
  · intro h1 h2; simp [loadPlugin, h1, h2]
  · intro h1 h2 h3
    rcases h3 with h3 | h3 <;> subst h3 <;> simp [loadPlugin, h1, h2]
  · intro h1 h2 h3
    subst h3
    have hframe := startPlugin_frame ({ p with
      name := a, description := c, version := b, author := d, type := e,
      enabled := true, hasPlatform := true, loaded := true,
      registeredDevices := some 0, addedDevices := some 0 } :
      RegisteredPlugin) onStartOk false true
    cases start <;>
      simp [loadPlugin, h1, h2, hframe.1, hframe.2.1, hframe.2.2.1, hframe.2.2.2]

/-- Witness for claim C6 on a concrete successful load. -/
theorem loadPlugin_behavior_witness :
    (loadPlugin samplePlugin
      (ImportOutcome.success "matterbridge-example" "1.0.0" "Example plugin"
        "example" "DynamicPlatform") true true true).plugin.loaded = true :=
  ((loadPlugin_behavior samplePlugin
      (ImportOutcome.success "matterbridge-example" "1.0.0" "Example plugin"
        "example" "DynamicPlatform") true true true
      "matterbridge-example" "1.0.0" "Example plugin" "example"
      "DynamicPlatform").2.2.2 (by decide) (by decide) rfl).1

/-- Counterexample to claim C1: in childbridge mode, addBridgedDevice for an
AccessoryPlatform plugin that is already locked does not fail and does not
leave the registry and counters unchanged: the second device is appended to
the device registry and both counters are incremented (the source has no
UnsupportedTopology failure path). -/
theorem addBridgedDevice_locked_accessory_counterexample :
    (addBridgedDevice lockedAccessoryState "acc" (sampleDevice 8) "aa" "bb").registeredDevices
      = [("acc", 7), ("acc", 8)] ∧
    (findPlugin (addBridgedDevice lockedAccessoryState "acc" (sampleDevice 8) "aa" "bb")
      "acc").map RegisteredPlugin.registeredDevices = some (some 2) ∧
    (findPlugin (addBridgedDevice lockedAccessoryState "acc" (sampleDevice 8) "aa" "bb")
      "acc").map RegisteredPlugin.addedDevices = some (some 2) := by
  decide

/-- Claim C1 as amended: in childbridge mode, addBridgedDevice for an
AccessoryPlatform plugin whose locked flag is already true skips the
commissioning-server creation but does not fail: it appends the device to the
device registry and increments registeredDevices and addedDevices, leaving
every other part of the state (and every other plugin field) unchanged. -/
theorem addBridgedDevice_locked_accessory_registers (st : MBState)
    (pluginName : String) (d : MbDevice) (cs ag : String) (p : RegisteredPlugin)
    (hmode : st.bridgeMode = "childbridge")
    (hfind : findPlugin st pluginName = some p)
    (htype : p.type = "AccessoryPlatform")
    (hlocked : p.locked = true) :
    addBridgedDevice st pluginName d cs ag =
      { st with
        registeredPlugins := updateFirst st.registeredPlugins pluginName
          (fun _ => bumpCounters p),
        registeredDevices := st.registeredDevices ++ [(pluginName, d.id)] } := by
  have hguard : ¬(st.bridgeMode = "bridge" ∧ st.matterAggregator = none) := by
    simp [hmode]
  rw [addBridgedDevice_spec st pluginName d cs ag p hguard hfind]
  have htop : addBridgedDeviceTopology st p d cs ag = (p, st) := by
    simp [addBridgedDeviceTopology, hmode, htype, hlocked]
  rw [htop]

/-- Witness for the amended claim C1 on the concrete locked accessory
state. -/
theorem addBridgedDevice_locked_accessory_registers_witness :
    addBridgedDevice lockedAccessoryState "acc" (sampleDevice 8) "aa" "bb" =
      { lockedAccessoryState with
        registeredPlugins := updateFirst lockedAccessoryState.registeredPlugins
          "acc" (fun _ => bumpCounters lockedAccessoryPlugin),
        registeredDevices := lockedAccessoryState.registeredDevices ++ [("acc", 8)] } :=
  addBridgedDevice_locked_accessory_registers lockedAccessoryState "acc"
    (sampleDevice 8) "aa" "bb" lockedAccessoryPlugin rfl (by decide) rfl rfl

/-- Claim C9: in childbridge mode, when the plugin connected flag is not true,
removeBridgedDevice returns early and leaves the entire state unchanged: the
device stays in the device registry, the counters are not decremented, and
the device is neither detached from any aggregator nor marked unreachable. -/
theorem removeBridgedDevice_not_connected_noop (st : MBState)
    (pluginName : String) (d : MbDevice) (p : RegisteredPlugin)
    (hmode : st.bridgeMode = "childbridge")
    (hfind : findPlugin st pluginName = some p)
    (hconn : p.connected = false) :
    removeBridgedDevice st pluginName d = st :=
  removeBridgedDevice_eq_of_not_connected st pluginName d p hmode hfind hconn

/-- Witness for claim C9 on the concrete not-connected childbridge state. -/
theorem removeBridgedDevice_not_connected_noop_witness :
    removeBridgedDevice childbridgeState "dyn" (sampleDevice 3) = childbridgeState :=
  removeBridgedDevice_not_connected_noop childbridgeState "dyn" (sampleDevice 3)
    notConnectedPlugin rfl (by decide) rfl

/-- Counterexample to claim C5: in childbridge mode with the plugin not
connected, addBridgedDevice increments both counters but the following
removeBridgedDevice returns early, so the counters stay at their post-add
values instead of returning to the pre-add values (both were 0 before). -/
theorem add_remove_counters_counterexample :
    (findPlugin (removeBridgedDevice
        (addBridgedDevice childbridgeState "dyn" (sampleDevice 3) "aa" "bb")
        "dyn" (sampleDevice 3)) "dyn").map RegisteredPlugin.registeredDevices
      = some (some 1) ∧
    (findPlugin (removeBridgedDevice
        (addBridgedDevice childbridgeState "dyn" (sampleDevice 3) "aa" "bb")
        "dyn" (sampleDevice 3)) "dyn").map RegisteredPlugin.addedDevices
      = some (some 1) := by
  decide

/-- Claim C5 as amended: add-then-remove returns registeredDevices and
addedDevices to their pre-add values provided removeBridgedDevice does not
return early, that is in bridge mode always, and in childbridge mode when the
plugin is a connected DynamicPlatform whose aggregator exists whenever it is
already locked; and the two counters move in lockstep on every add and
remove (equal counters stay equal). -/
theorem add_remove_counters_roundtrip (st : MBState) (pluginName : String)
    (d : MbDevice) (cs ag : String) (p : RegisteredPlugin)
    (hfind : findPlugin st pluginName = some p)
    (hok : st.bridgeMode = "bridge" ∨
      (st.bridgeMode = "childbridge" ∧ p.type = "DynamicPlatform" ∧
        p.connected = true ∧ (p.locked = true → p.aggregator ≠ none))) :
    ((findPlugin (removeBridgedDevice (addBridgedDevice st pluginName d cs ag)
        pluginName d) pluginName).map RegisteredPlugin.registeredDevices =
      some p.registeredDevices ∧
     (findPlugin (removeBridgedDevice (addBridgedDevice st pluginName d cs ag)
        pluginName d) pluginName).map RegisteredPlugin.addedDevices =
      some p.addedDevices) ∧
    (p.registeredDevices = p.addedDevices →
      (∀ q, findPlugin (addBridgedDevice st pluginName d cs ag) pluginName =
        some q → q.registeredDevices = q.addedDevices) ∧
      (∀ q, findPlugin (removeBridgedDevice st pluginName d) pluginName =
        some q → q.registeredDevices = q.addedDevices)) := by
  constructor
  · rcases hok with hmode | ⟨hmode, htype, hconn, haggimp⟩
    · by_cases hagg : st.matterAggregator = none
      · have hadd : addBridgedDevice st pluginName d cs ag = st := by
          unfold addBridgedDevice
          rw [if_pos ⟨hmode, hagg⟩]
        have hrem : removeBridgedDevice st pluginName d = st := by
          unfold removeBridgedDevice
          rw [if_pos ⟨hmode, hagg⟩]
        rw [hadd, hrem, hfind]
        exact ⟨rfl, rfl⟩
      · have hguard : ¬(st.bridgeMode = "bridge" ∧ st.matterAggregator = none) :=
          fun h => hagg h.2
        have hspec := addBridgedDeviceTopology_spec st p d cs ag
        have hfind' := findPlugin_after_add st pluginName d cs ag p hguard hfind
        have hadd := addBridgedDevice_spec st pluginName d cs ag p hguard hfind
        set st' := addBridgedDevice st pluginName d cs ag with hst'
        have hmode' : st'.bridgeMode = "bridge" := by
          rw [hadd]
          exact (hspec.2.2.2.2.2.2.1).trans hmode
        have hagg' : st'.matterAggregator ≠ none := by
          rw [hadd]
          show (addBridgedDeviceTopology st p d cs ag).2.matterAggregator ≠ none
          rw [hspec.2.2.2.2.2.2.2.2.1, if_pos hmode]
          simpa using hagg
        rw [removeBridgedDevice_spec_bridge st' pluginName d _ hmode' hagg' hfind']
        have hfinal : (updateFirst st'.registeredPlugins pluginName
            decCounters).find? (fun q => q.name == pluginName) =
            some (decCounters (bumpCounters (addBridgedDeviceTopology st p d cs ag).1)) :=
          find?_updateFirst st'.registeredPlugins pluginName decCounters _
            (by simpa [findPlugin] using hfind') rfl
        show ((updateFirst st'.registeredPlugins pluginName decCounters).find?
            (fun q => q.name == pluginName)).map RegisteredPlugin.registeredDevices =
            some p.registeredDevices ∧
          ((updateFirst st'.registeredPlugins pluginName decCounters).find?
            (fun q => q.name == pluginName)).map RegisteredPlugin.addedDevices =
            some p.addedDevices
        rw [hfinal]
        have hdec := decCounters_bumpCounters_counters
          (addBridgedDeviceTopology st p d cs ag).1
        simp [hdec.1, hdec.2, hspec.1, hspec.2.1]
    · have hguard : ¬(st.bridgeMode = "bridge" ∧ st.matterAggregator = none) := by
        simp [hmode]
      have hspec := addBridgedDeviceTopology_spec st p d cs ag
      have hfind' := findPlugin_after_add st pluginName d cs ag p hguard hfind
      have hadd := addBridgedDevice_spec st pluginName d cs ag p hguard hfind
      set q := bumpCounters (addBridgedDeviceTopology st p d cs ag).1 with hq
      set st' := addBridgedDevice st pluginName d cs ag with hst'
      have hmode' : st'.bridgeMode = "childbridge" := by
        rw [hadd]
        exact (hspec.2.2.2.2.2.2.1).trans hmode
      have htype' : q.type = "DynamicPlatform" := by
        rw [hq, (bumpCounters_fields _).2.1, hspec.2.2.2.1]
        exact htype
      have hconn' : q.connected = true := by
        rw [hq, (bumpCounters_fields _).2.2.1, hspec.2.2.2.2.1]
        exact hconn
      have haggq : q.aggregator ≠ none := by
        rw [hq, (bumpCounters_fields _).2.2.2.1]
        exact hspec.2.2.2.2.2.2.2.2.2 hmode htype haggimp
      rw [removeBridgedDevice_spec_childbridge st' pluginName d q hmode' hfind'
        htype' haggq hconn']
      have step1 : (updateFirst st'.registeredPlugins pluginName
          (fun r => { r with
            aggregator := r.aggregator.map (fun ds => ds.erase d.id) })).find?
          (fun r => r.name == pluginName) =
          some ({ q with
            aggregator := q.aggregator.map (fun ds => ds.erase d.id) }) :=
        find?_updateFirst st'.registeredPlugins pluginName _ q
          (by simpa [findPlugin] using hfind') rfl
      have hfinal : (updateFirst (updateFirst st'.registeredPlugins pluginName
          (fun r => { r with
            aggregator := r.aggregator.map (fun ds => ds.erase d.id) }))
          pluginName decCounters).find? (fun r => r.name == pluginName) =
          some (decCounters ({ q with
            aggregator := q.aggregator.map (fun ds => ds.erase d.id) })) :=
        find?_updateFirst _ pluginName decCounters _ step1 rfl
      show ((updateFirst (updateFirst st'.registeredPlugins pluginName
          (fun r => { r with
            aggregator := r.aggregator.map (fun ds => ds.erase d.id) }))
          pluginName decCounters).find? (fun r => r.name == pluginName)).map
          RegisteredPlugin.registeredDevices = some p.registeredDevices ∧
        ((updateFirst (updateFirst st'.registeredPlugins pluginName
          (fun r => { r with
            aggregator := r.aggregator.map (fun ds => ds.erase d.id) }))
          pluginName decCounters).find? (fun r => r.name == pluginName)).map
          RegisteredPlugin.addedDevices = some p.addedDevices
      rw [hfinal]
      constructor
      · show some ((((addBridgedDeviceTopology st p d cs ag).1.registeredDevices.map
            (fun k => k + 1)).map (fun k => k - 1))) = some p.registeredDevices
        rw [map_add_one_sub_one, hspec.1]
      · show some ((((addBridgedDeviceTopology st p d cs ag).1.addedDevices.map
            (fun k => k + 1)).map (fun k => k - 1))) = some p.addedDevices
        rw [map_add_one_sub_one, hspec.2.1]
  · intro heq
    constructor
    · intro q hq
      rcases findPlugin_addBridgedDevice_cases st pluginName d cs ag p hfind with
        h | ⟨r, hr1, hr2, h⟩
      · rw [h] at hq
        cases Option.some.inj hq
        exact heq
      · rw [h] at hq
        cases Option.some.inj hq
        show r.registeredDevices.map (fun k => k + 1) =
          r.addedDevices.map (fun k => k + 1)
        rw [hr1, hr2, heq]
    · intro q hq
      rcases findPlugin_removeBridgedDevice_cases st pluginName d p hfind with
        h | ⟨r, hr1, hr2, h⟩
      · rw [h] at hq
        cases Option.some.inj hq
        exact heq
      · rw [h] at hq
        cases Option.some.inj hq
        show r.registeredDevices.map (fun k => k - 1) =
          r.addedDevices.map (fun k => k - 1)
        rw [hr1, hr2, heq]

/-- Witness for the amended claim C5: a childbridge round trip on a connected
dynamic plugin restores both counters to zero. -/
theorem add_remove_counters_roundtrip_witness :
    (findPlugin (removeBridgedDevice
        (addBridgedDevice connectedChildbridgeState "dyn" (sampleDevice 3) "aa" "bb")
        "dyn" (sampleDevice 3)) "dyn").map RegisteredPlugin.registeredDevices
      = some (some 0) :=
  ((add_remove_counters_roundtrip connectedChildbridgeState "dyn" (sampleDevice 3)
      "aa" "bb" connectedPlugin (by decide)
      (Or.inr ⟨rfl, rfl, rfl, fun _ => by decide⟩)).1).1

/-- Claim C4: createCommissioningServerContext reads serialNumber and uniqueId
with a random fallback default that is only materialized and persisted the
first time: when the storage context already holds serialNumber or uniqueId
the stored value is read back unchanged, when it is absent the fresh default
is persisted, while softwareVersion, softwareVersionString, hardwareVersion
and hardwareVersionString are unconditionally overwritten on every call. -/
theorem createCommissioningServerContext_identity_stable
    (st : Store) (randomHex deviceName : String) (deviceType vendorId : Nat)
    (vendorName : String) (productId : Nat) (productName : String)
    (mbVersion osRelease : String) :
    (∀ sv, storeGet st "serialNumber" = some sv →
      storeGet (createCommissioningServerContext st randomHex deviceName deviceType
        vendorId vendorName productId productName mbVersion osRelease)
        "serialNumber" = some sv) ∧
    (storeGet st "serialNumber" = none →
      storeGet (createCommissioningServerContext st randomHex deviceName deviceType
        vendorId vendorName productId productName mbVersion osRelease)
        "serialNumber" = some (StoreVal.s ("CS" ++ randomHex))) ∧
    (∀ uv, storeGet st "uniqueId" = some uv →
      storeGet (createCommissioningServerContext st randomHex deviceName deviceType
        vendorId vendorName productId productName mbVersion osRelease)
        "uniqueId" = some uv) ∧
    (storeGet st "uniqueId" = none →
      storeGet (createCommissioningServerContext st randomHex deviceName deviceType
        vendorId vendorName productId productName mbVersion osRelease)
        "uniqueId" = some (StoreVal.s ("CS" ++ randomHex))) ∧
    storeGet (createCommissioningServerContext st randomHex deviceName deviceType
      vendorId vendorName productId productName mbVersion osRelease)
      "softwareVersion" = some (versionNumberValue mbVersion) ∧
    storeGet (createCommissioningServerContext st randomHex deviceName deviceType
      vendorId vendorName productId productName mbVersion osRelease)
      "softwareVersionString" = some (StoreVal.s mbVersion) ∧
    storeGet (createCommissioningServerContext st randomHex deviceName deviceType
      vendorId vendorName productId productName mbVersion osRelease)
      "hardwareVersion" = some (versionNumberValue osRelease) ∧
    storeGet (createCommissioningServerContext st randomHex deviceName deviceType
      vendorId vendorName productId productName mbVersion osRelease)
      "hardwareVersionString" = some (StoreVal.s osRelease) := by
  refine ⟨?_, ?_, ?_, ?_, ?_, ?_, ?_, ?_⟩ <;>
    first
      | (intro sv hsv
         simp [createCommissioningServerContext, ctxGetD, storeGet_ctxSet, hsv])
      | (intro h
         simp [createCommissioningServerContext, ctxGetD, storeGet_ctxSet, h])
      | simp [createCommissioningServerContext, ctxGetD, storeGet_ctxSet]

/-- Witness for claim C4 at a concrete pre-populated storage context. -/
theorem createCommissioningServerContext_identity_stable_witness :
    storeGet (createCommissioningServerContext
        [("serialNumber", StoreVal.s "CS0011"), ("uniqueId", StoreVal.s "CS0022")]
        "ffff" "Matterbridge" 14 65521 "Matterbridge" 32768 "Matterbridge gateway"
        "1.6.5" "6.5.0")
      "serialNumber" = some (StoreVal.s "CS0011") :=
  (createCommissioningServerContext_identity_stable
      [("serialNumber", StoreVal.s "CS0011"), ("uniqueId", StoreVal.s "CS0022")]
      "ffff" "Matterbridge" 14 65521 "Matterbridge" 32768 "Matterbridge gateway"
      "1.6.5" "6.5.0").1
    (StoreVal.s "CS0011") (by decide)

/-- Claim C10: createCommisioningServer passes the current port counter to the
new commissioning server and post-increments it (passcode and discriminator are
passed as-is and incremented afterwards when defined), so the servers created
in one process run receive strictly increasing, pairwise distinct ports. -/
theorem createCommisioningServer_ports_strictly_increasing
    (ids : ServerIdState) (count i j pc dm : Nat)
    (hij : i < j) (hj : j < count) :
    (createCommisioningServer ids).1.port = ids.port ∧
    (createCommisioningServer ids).2.port = ids.port + 1 ∧
    (createCommisioningServer ids).1.passcode = ids.passcode ∧
    (createCommisioningServer ids).1.discriminator = ids.discriminator ∧
    (ids.passcode = some pc →
      (createCommisioningServer ids).2.passcode = some (pc + 1)) ∧
    (ids.discriminator = some dm →
      (createCommisioningServer ids).2.discriminator = some (dm + 1)) ∧
    (serverPorts ids count).getD i 0 < (serverPorts ids count).getD j 0 := by
  refine ⟨rfl, rfl, rfl, rfl, ?_, ?_, ?_⟩
  · intro h; simp [createCommisioningServer, h]
  · intro h; simp [createCommisioningServer, h]
  · rw [serverPorts_getD ids count i (lt_trans hij hj), serverPorts_getD ids count j hj]
    omega

/-- Witness for claim C10 with the default port and three creations. -/
theorem createCommisioningServer_ports_strictly_increasing_witness :
    (serverPorts ⟨5540, some 20202021, some 3840⟩ 3).getD 0 0 <
      (serverPorts ⟨5540, some 20202021, some 3840⟩ 3).getD 2 0 :=
  (createCommisioningServer_ports_strictly_increasing
      ⟨5540, some 20202021, some 3840⟩ 3 0 2 20202021 3840
      (by decide) (by decide)).2.2.2.2.2.2

theorem bridgePoll_start_sound (ps : List RegisteredPlugin) (failCount : Nat)
    (hstart : (bridgePoll ps failCount).1 = PollAction.startServer) :
    ∀ q ∈ ps, q.enabled = true →
      q.error = false ∧ q.loaded = true ∧ q.started = true := by
  induction ps generalizing failCount with
  | nil => intro q hq; simp at hq
  | cons p rest ih =>
    intro q hq he
    by_cases hen : p.enabled = false
    · rw [show (bridgePoll (p :: rest) failCount).1 =
          (bridgePoll rest failCount).1 by simp [bridgePoll, hen]] at hstart
      rcases List.mem_cons.mp hq with hqp | hqr
      · subst hqp; rw [he] at hen; simp at hen
      · exact ih failCount hstart q hqr he
    · by_cases herr : p.error
      · rw [show (bridgePoll (p :: rest) failCount).1 = PollAction.abort by
          simp [bridgePoll, hen, herr]] at hstart
        simp at hstart
      · by_cases hw : p.loaded = false ∨ p.started = false
        · have : (bridgePoll (p :: rest) failCount).1 = PollAction.waiting := by
            by_cases hf : failCount + 1 > 30 <;> simp [bridgePoll, hen, herr, hw, hf]
          rw [this] at hstart
          simp at hstart
        · rw [show (bridgePoll (p :: rest) failCount).1 =
              (bridgePoll rest failCount).1 by simp [bridgePoll, hen, herr, hw]] at hstart
          rcases List.mem_cons.mp hq with hqp | hqr
          · subst hqp
            simp only [not_or, Bool.not_eq_false] at hw
            exact ⟨by simpa using herr, hw.1, hw.2⟩
          · exact ih failCount hstart q hqr he

theorem childbridgePoll_false_not_start (ps : List RegisteredPlugin)
    (failCount : Nat) :
    (childbridgePoll ps failCount false).1 ≠ PollAction.startServer := by
  induction ps generalizing failCount with
  | nil => simp [childbridgePoll]
  | cons p rest ih =>
    by_cases hen : p.enabled = false
    · simpa [childbridgePoll, hen] using ih failCount
    · by_cases herr : p.error
      · simp [childbridgePoll, hen, herr]
      · by_cases hw : p.loaded = false ∨ p.started = false
        · simpa [childbridgePoll, hen, herr, hw] using ih (failCount + 1)
        · simpa [childbridgePoll, hen, herr, hw] using ih failCount

theorem childbridgePoll_start_sound (ps : List RegisteredPlugin)
    (failCount : Nat) (allStarted : Bool)
    (hstart : (childbridgePoll ps failCount allStarted).1 = PollAction.startServer) :
    ∀ q ∈ ps, q.enabled = true →
      q.error = false ∧ q.loaded = true ∧ q.started = true := by
  induction ps generalizing failCount allStarted with
  | nil => intro q hq; simp at hq
  | cons p rest ih =>
    intro q hq he
    by_cases hen : p.enabled = false
    · rw [show (childbridgePoll (p :: rest) failCount allStarted).1 =
          (childbridgePoll rest failCount allStarted).1 by
        simp [childbridgePoll, hen]] at hstart
      rcases List.mem_cons.mp hq with hqp | hqr
      · subst hqp; rw [he] at hen; simp at hen
      · exact ih failCount allStarted hstart q hqr he
    · by_cases herr : p.error
      · rw [show (childbridgePoll (p :: rest) failCount allStarted).1 =
            PollAction.abort by simp [childbridgePoll, hen, herr]] at hstart
        simp at hstart
      · by_cases hw : p.loaded = false ∨ p.started = false
        · rw [show (childbridgePoll (p :: rest) failCount allStarted).1 =
              (childbridgePoll rest (failCount + 1) false).1 by
            simp [childbridgePoll, hen, herr, hw]] at hstart
          exact absurd hstart (childbridgePoll_false_not_start rest (failCount + 1))
        · rw [show (childbridgePoll (p :: rest) failCount allStarted).1 =
              (childbridgePoll rest failCount allStarted).1 by
            simp [childbridgePoll, hen, herr, hw]] at hstart
          rcases List.mem_cons.mp hq with hqp | hqr
          · subst hqp
            simp only [not_or, Bool.not_eq_false] at hw
            exact ⟨by simpa using herr, hw.1, hw.2⟩
          · exact ih failCount allStarted hstart q hqr he

theorem childbridgePoll_error_abort (ps : List RegisteredPlugin)
    (failCount : Nat) (allStarted : Bool)
    (hex : ∃ q ∈ ps, q.enabled = true ∧ q.error = true) :
    (childbridgePoll ps failCount allStarted).1 = PollAction.abort := by
  induction ps generalizing failCount allStarted with
  | nil => obtain ⟨q, hq, -⟩ := hex; simp at hq
  | cons p rest ih =>
    obtain ⟨q, hq, he, herr⟩ := hex
    rcases List.mem_cons.mp hq with hqp | hqr
    · subst hqp
      simp [childbridgePoll, he, herr]
    · by_cases hen : p.enabled = false
      · simpa [childbridgePoll, hen] using
          ih failCount allStarted ⟨q, hqr, he, herr⟩
      · by_cases hperr : p.error
        · simp [childbridgePoll, hen, hperr]
        · by_cases hw : p.loaded = false ∨ p.started = false
          · simpa [childbridgePoll, hen, hperr, hw] using
              ih (failCount + 1) false ⟨q, hqr, he, herr⟩
          · simpa [childbridgePoll, hen, hperr, hw] using
              ih failCount allStarted ⟨q, hqr, he, herr⟩

theorem bridgePoll_abort_of_prefix_ok (ps₁ ps₂ : List RegisteredPlugin)
    (p : RegisteredPlugin) (failCount : Nat)
    (he : p.enabled = true) (herr : p.error = true)
    (hok : ∀ q ∈ ps₁, q.enabled = true →
      q.error = false ∧ q.loaded = true ∧ q.started = true) :
    (bridgePoll (ps₁ ++ p :: ps₂) failCount).1 = PollAction.abort := by
  induction ps₁ generalizing failCount with
  | nil => simp [bridgePoll, he, herr]
  | cons hd tl ih =>
    by_cases hen : hd.enabled = false
    · simpa [bridgePoll, hen] using
        ih failCount (fun q hq => hok q (List.mem_cons_of_mem hd hq))
    · have hen' : hd.enabled = true := by
        cases h : hd.enabled
        · exact absurd h hen
        · rfl
      obtain ⟨h1, h2, h3⟩ := hok hd (List.mem_cons_self hd tl) hen'
      simpa [bridgePoll, hen, h1, h2, h3] using
        ih failCount (fun q hq => hok q (List.mem_cons_of_mem hd hq))

/-- Counterexample to claim C3: in bridge mode, on a poll where the first
enabled plugin is still waiting to load and a later enabled plugin has
error=true, the poll returns while waiting and the interval is NOT cleared
(the claim says any poll seeing an errored enabled plugin clears the
interval). -/
theorem startSupervisor_error_poll_counterexample :
    (bridgePoll [waitingSamplePlugin, erroredSamplePlugin] 0).1 =
      PollAction.waiting ∧
    (bridgePoll [waitingSamplePlugin, erroredSamplePlugin] 0).1 ≠
      PollAction.abort := by
  decide

/-- Claim C3 as amended: in both modes a poll never hands off to
startMatterServer while any enabled plugin has error=true, and
startMatterServer is only reached on a poll in which every enabled plugin has
error falsy, loaded=true and started=true; in childbridge mode any poll
seeing an errored enabled plugin clears the interval, while in bridge mode
the scan returns at the first enabled plugin still waiting, so the errored
plugin clears the interval only when every enabled plugin before it is
non-errored, loaded and started. -/
theorem startSupervisor_blocks_on_error (ps ps₁ ps₂ : List RegisteredPlugin)
    (p : RegisteredPlugin) (failCount : Nat) (allStarted : Bool) :
    ((bridgePoll ps failCount).1 = PollAction.startServer →
      ∀ q ∈ ps, q.enabled = true →
        q.error = false ∧ q.loaded = true ∧ q.started = true) ∧
    ((childbridgePoll ps failCount allStarted).1 = PollAction.startServer →
      ∀ q ∈ ps, q.enabled = true →
        q.error = false ∧ q.loaded = true ∧ q.started = true) ∧
    ((∃ q ∈ ps, q.enabled = true ∧ q.error = true) →
      (bridgePoll ps failCount).1 ≠ PollAction.startServer ∧
      (childbridgePoll ps failCount allStarted).1 = PollAction.abort) ∧
    (ps = ps₁ ++ p :: ps₂ → p.enabled = true → p.error = true →
      (∀ q ∈ ps₁, q.enabled = true →
        q.error = false ∧ q.loaded = true ∧ q.started = true) →
      (bridgePoll ps failCount).1 = PollAction.abort) := by
  refine ⟨bridgePoll_start_sound ps failCount,
    childbridgePoll_start_sound ps failCount allStarted, ?_, ?_⟩
  · intro hex
    refine ⟨?_, childbridgePoll_error_abort ps failCount allStarted hex⟩
    intro hstart
    obtain ⟨q, hq, he, herr⟩ := hex
    have := (bridgePoll_start_sound ps failCount hstart q hq he).1
    rw [herr] at this
    simp at this
  · intro hps he herr hok
    rw [hps]
    exact bridgePoll_abort_of_prefix_ok ps₁ ps₂ p failCount he herr hok

/-- Witness for the amended claim C3: with one healthy enabled plugin the
bridge poll hands off to startMatterServer and that plugin is non-errored,
loaded and started; with an errored enabled plugin present the childbridge
poll aborts. -/
theorem startSupervisor_blocks_on_error_witness :
    (startedSamplePlugin.error = false ∧ startedSamplePlugin.loaded = true ∧
      startedSamplePlugin.started = true) ∧
    (childbridgePoll [startedSamplePlugin, erroredSamplePlugin] 0 true).1 =
      PollAction.abort :=
  ⟨(startSupervisor_blocks_on_error [startedSamplePlugin] [] []
      startedSamplePlugin 0 true).1 (by decide) startedSamplePlugin
      (by decide) (by decide),
   ((startSupervisor_blocks_on_error [startedSamplePlugin, erroredSamplePlugin]
      [] [] startedSamplePlugin 0 true).2.2.1
      ⟨erroredSamplePlugin, by decide, by decide, by decide⟩).2⟩

/-- Counterexample to claim C8: a cleanup invocation that passes the guard
with restart=true and a message that is neither updating nor restarting
emits no event at all and does not clear the singleton instance handle. -/
theorem cleanup_restart_unknown_message_counterexample :
    (cleanup ⟨false, true, [], []⟩ "maintenance" true).emitted = none ∧
    (cleanup ⟨false, true, [], []⟩ "maintenance" true).state.instancePresent
      = true := by
  decide

/-- Claim C8 as amended: for every invocation of cleanup(message, restart)
that passes the hasCleanupStarted guard, when restart=false exactly one event
(shutdown) is emitted and the singleton instance handle is cleared, for every
message; when restart=true this holds only for the exact messages updating
(event update) and restarting (event restart); for any other message with
restart=true no event is emitted and the instance handle is left in place. -/
theorem cleanup_emit_behavior (st : CleanupState) (message : String)
    (restart : Bool) (hguard : st.hasCleanupStarted = false) :
    (restart = false →
      (cleanup st message restart).emitted = some LifecycleEvent.shutdown ∧
      (cleanup st message restart).state.instancePresent = false) ∧
    (restart = true → message = "updating..." →
      (cleanup st message restart).emitted = some LifecycleEvent.update ∧
      (cleanup st message restart).state.instancePresent = false) ∧
    (restart = true → message = "restarting..." →
      (cleanup st message restart).emitted = some LifecycleEvent.restart ∧
      (cleanup st message restart).state.instancePresent = false) ∧
    (restart = true → message ≠ "updating..." → message ≠ "restarting..." →
      (cleanup st message restart).emitted = none ∧
      (cleanup st message restart).state.instancePresent =
        st.instancePresent) := by
  refine ⟨?_, ?_, ?_, ?_⟩
  · intro hr; subst hr; simp [cleanup, hguard]
  · intro hr hm; subst hr; subst hm; simp [cleanup, hguard]
  · intro hr hm; subst hr; subst hm; simp [cleanup, hguard]
  · intro hr hm1 hm2; subst hr; simp [cleanup, hguard, hm1, hm2]

/-- Witness for the amended claim C8 at a concrete restarting invocation. -/
theorem cleanup_emit_behavior_witness :
    (cleanup ⟨false, true, [], []⟩ "restarting..." true).emitted =
      some LifecycleEvent.restart ∧
    (cleanup ⟨false, true, [], []⟩ "restarting..." true).state.instancePresent
      = false :=
  (cleanup_emit_behavior ⟨false, true, [], []⟩ "restarting..." true rfl).2.2.1
    rfl rfl

end Matterbridge
